import Mathlib

/-!
Verification of the fee-derivation core of `src/api/vaults/getVaultFees.ts`.

Numbers: the source computes with JavaScript numbers (and BigNumber values
decoded from hex, which are always actual finite numbers).  We embed a
JavaScript numeric value as `Option ℚ`: `some q` is a finite value, `none`
stands for a non-finite result (`NaN`, or the infinities produced by
division by zero; the development does not need to distinguish them).  An
absent accessor result (`undefined` in the source) is also `none` at the
field level: every arithmetic operation on `undefined` yields `NaN`, and
the strict-equality comparisons the source performs never distinguish the
two (`NaN === x`, `x === undefined` and `NaN === undefined` are all false
whenever `x` is a number), so the collapse is observationally faithful for
every expression this file models.
-/

namespace VaultFees

/-- JavaScript `+` as used on accessor values: any `undefined`/non-finite
operand yields `NaN` (`none`). -/
def jsAdd : Option ℚ → Option ℚ → Option ℚ
  | some a, some b => some (a + b)
  | _, _ => none

/-- JavaScript `*` as used on accessor values. -/
def jsMul : Option ℚ → Option ℚ → Option ℚ
  | some a, some b => some (a * b)
  | _, _ => none

/-- JavaScript `/` as used on accessor values: division by zero and any
`undefined`/non-finite operand yield a non-finite result (`none`). -/
def jsDiv : Option ℚ → Option ℚ → Option ℚ
  | some a, some b => if b = 0 then none else some (a / b)
  | _, _ => none

/-- JavaScript strict equality `===` between a computed sum (a number,
possibly `NaN`) and a max-fee accessor (a number or `undefined`): true
exactly when both sides are finite and equal. -/
def jsEq (a b : Option ℚ) : Bool :=
  match a, b with
  | some x, some y => decide (x = y)
  | _, _ => false

/-- JavaScript `??` (nullish coalescing) on accessor values. -/
def jsNullish (a b : Option ℚ) : Option ℚ :=
  match a with
  | some x => some x
  | none => b

/-- JavaScript `String.prototype.includes`. -/
def jsIncludes (s sub : String) : Bool :=
  decide (sub.toList <:+: s.toList)

/-- JavaScript `String.prototype.toLowerCase` (character-wise lowering; the
addresses it is applied to are ASCII). -/
def jsToLowerCase (s : String) : String :=
  ⟨s.data.map Char.toLower⟩

/-- Decoded result of a `getFees`-style breakdown getter
(`PerformanceFeeCallResponse` in the source); the four values are decoded
BigNumbers, hence always finite. -/
structure PerformanceFeeCallResponse where
  total : ℚ
  beefy : ℚ
  strategist : ℚ
  call : ℚ
deriving DecidableEq, Repr

/-- Decoded result of a `getAllFees`-style aggregate getter (the `allFees`
field of `StrategyCallResponse` in the source). -/
structure AllFeesResponse where
  performance : PerformanceFeeCallResponse
  withdraw : ℚ
  deposit : ℚ
deriving DecidableEq, Repr

/-- One strategy's decoded multicall probe (`StrategyCallResponse` in the
source): each accessor field is `some v` when the call decoded to `v` and
`none` when the method was absent or the call reverted (`undefined`). -/
structure StrategyCallResponse where
  id : String
  strategy : String
  strategist : Option ℚ := none
  strategist2 : Option ℚ := none
  call : Option ℚ := none
  call2 : Option ℚ := none
  call3 : Option ℚ := none
  call4 : Option ℚ := none
  maxCallFee : Option ℚ := none
  beefy : Option ℚ := none
  fee : Option ℚ := none
  treasury : Option ℚ := none
  rewards : Option ℚ := none
  rewards2 : Option ℚ := none
  breakdown : Option PerformanceFeeCallResponse := none
  allFees : Option AllFeesResponse := none
  maxFee : Option ℚ := none
  maxFee2 : Option ℚ := none
  maxFee3 : Option ℚ := none
  withdraw : Option ℚ := none
  withdraw2 : Option ℚ := none
  withdrawMax : Option ℚ := none
  withdrawMax2 : Option ℚ := none
  paused : Option Bool := none
deriving DecidableEq, Repr

/-- Canonical performance-fee breakdown (`PerformanceFee` in the source);
each field is a JavaScript number, possibly non-finite. -/
structure PerformanceFee where
  total : Option ℚ
  call : Option ℚ
  strategist : Option ℚ
  treasury : Option ℚ
  stakers : Option ℚ
deriving DecidableEq, Repr

/-- Per-chain treasury/staker revenue split (`FeeBatchDetail` in the
source). -/
structure FeeBatchDetail where
  address : String
  treasurySplit : ℚ
  stakerSplit : ℚ
deriving DecidableEq, Repr

/-- Per-vault fee breakdown (`VaultFeeBreakdown` in the source).
`deposit = none` models the field being absent from the object (the source
spreads `{deposit}` in only when `depositFee != null`).  The `lastUpdated`
wall-clock timestamp is outside the model. -/
structure VaultFeeBreakdown where
  performance : PerformanceFee
  withdraw : Option ℚ
  deposit : Option ℚ := none
deriving DecidableEq, Repr

/-- `depositFeeFromCalls`: the aggregate getter's deposit value over 10000,
or `null` (here `none`) so old strategies get no `deposit` field at all. -/
def depositFeeFromCalls (contractCalls : StrategyCallResponse) : Option ℚ :=
  match contractCalls.allFees with
  | some allFees => some (allFees.deposit / 10000)
  | none => none

/-- `withdrawalFeeFromCalls`: the outer `Option` is the `undefined` the
caller tests for (`withdrawFee === undefined`); the inner `Option ℚ` is the
returned JavaScript number. -/
def withdrawalFeeFromCalls (contractCalls : StrategyCallResponse) :
    Option (Option ℚ) :=
  match contractCalls.allFees with
  | some allFees => some (some (allFees.withdraw / 10000))
  | none =>
    if (contractCalls.withdraw = none ∧ contractCalls.withdraw2 = none)
        ∨ (contractCalls.withdrawMax = none ∧ contractCalls.withdrawMax2 = none)
        ∨ contractCalls.paused = some true then
      some (some 0)
    else
      some (jsDiv (jsNullish contractCalls.withdraw contractCalls.withdraw2)
        (jsNullish contractCalls.withdrawMax contractCalls.withdrawMax2))

/-- `legacyFeeMappings`: the ordered chain of historical fee-formula
branches; `none` models the fall-through where `performanceFee` is never
assigned (classification failure, returns `undefined`). -/
def legacyFeeMappings (contractCalls : StrategyCallResponse)
    (feeBatch : FeeBatchDetail) : Option PerformanceFee :=
  let total : ℚ := 45/1000
  let callFee := jsNullish (jsNullish (jsNullish contractCalls.call contractCalls.call2)
    contractCalls.call3) contractCalls.call4
  let strategistFee := jsNullish contractCalls.strategist contractCalls.strategist2
  let maxFee := jsNullish (jsNullish contractCalls.maxFee contractCalls.maxFee2)
    contractCalls.maxFee3
  let beefyFee := contractCalls.beefy
  let fee := contractCalls.fee
  let treasury := contractCalls.treasury
  let rewards := jsNullish contractCalls.rewards contractCalls.rewards2
  if jsEq (jsAdd (jsAdd callFee strategistFee) beefyFee) maxFee then
    some { total := some total
           call := jsDiv (jsMul (some total) callFee) maxFee
           strategist := jsDiv (jsMul (some total) strategistFee) maxFee
           treasury := jsDiv (jsMul (some (total * feeBatch.treasurySplit)) beefyFee) maxFee
           stakers := jsDiv (jsMul (some (total * feeBatch.stakerSplit)) beefyFee) maxFee }
  else if jsEq (jsAdd (jsAdd (jsAdd callFee strategistFee) rewards) treasury) maxFee then
    some { total := some total
           call := jsDiv (jsMul (some total) callFee) maxFee
           strategist := jsDiv (jsMul (some total) strategistFee) maxFee
           treasury := jsDiv (jsMul (some total) treasury) maxFee
           stakers := jsDiv (jsMul (some total) rewards) maxFee }
  else if jsEq (jsAdd fee callFee) maxFee then
    -- total is reassigned to 0.05 in this branch
    some { total := some (5/100)
           call := jsDiv (jsMul (some ((5:ℚ)/100)) callFee) maxFee
           strategist := some 0
           treasury := some 0
           stakers := jsDiv (jsMul (some ((5:ℚ)/100)) fee) maxFee }
  else if (jsAdd (jsAdd strategistFee callFee) beefyFee).isSome then
    -- `!isNaN(strategistFee + callFee + beefyFee)`
    some { total := some total
           call := jsDiv (jsMul (some total) callFee) maxFee
           strategist := jsDiv (jsMul (some total) strategistFee) maxFee
           treasury := jsDiv (jsMul (some (total * feeBatch.treasurySplit)) beefyFee) maxFee
           stakers := jsDiv (jsMul (some (total * feeBatch.stakerSplit)) beefyFee) maxFee }
  else if (jsAdd (jsAdd strategistFee callFee) treasury).isSome then
    -- `!isNaN(strategistFee + callFee + treasury)`
    some { total := some total
           call := jsDiv (jsMul (some total) callFee) maxFee
           strategist := jsDiv (jsMul (some total) strategistFee) maxFee
           treasury := jsDiv (jsMul (some total) treasury) maxFee
           stakers := some 0 }
  else if jsEq (jsAdd (jsAdd callFee treasury) rewards) maxFee then
    some { total := some total
           call := jsDiv (jsMul (some total) callFee) maxFee
           strategist := some 0
           treasury := jsDiv (jsMul (some total) treasury) maxFee
           stakers := jsDiv (jsMul (some total) rewards) maxFee }
  else if jsEq (jsAdd callFee beefyFee) maxFee then
    -- total is reassigned to 0.01 for the one hard-coded vault id
    let total := if contractCalls.id = "cake-cakev2-eol" then (1:ℚ)/100 else total
    some { total := some total
           call := jsDiv (jsMul (some total) callFee) maxFee
           strategist := some 0
           treasury := jsDiv (jsMul (some (total * feeBatch.treasurySplit)) beefyFee) maxFee
           stakers := jsDiv (jsMul (some (total * feeBatch.stakerSplit)) beefyFee) maxFee }
  else if jsEq (jsAdd callFee fee) maxFee then
    some { total := some total
           call := jsDiv (jsMul (some total) callFee) maxFee
           strategist := some 0
           treasury := some 0
           stakers := jsDiv (jsMul (some total) fee) maxFee }
  else
    none

/-- `performanceFromGetFees`: fee values are encoded at 1e18 precision and
divided by 1e9 twice. -/
def performanceFromGetFees (fees : PerformanceFeeCallResponse)
    (feeBatch : FeeBatchDetail) : PerformanceFee :=
  let total : ℚ := fees.total / 1000000000 / 1000000000
  let beefy : ℚ := fees.beefy / 1000000000 / 1000000000
  let call : ℚ := fees.call / 1000000000 / 1000000000
  let strategist : ℚ := fees.strategist / 1000000000 / 1000000000
  let feeSum : ℚ := beefy + call + strategist
  let beefySplit := jsDiv (some (total * beefy)) (some feeSum)
  { total := some total
    call := jsDiv (some (total * call)) (some feeSum)
    strategist := jsDiv (some (total * strategist)) (some feeSum)
    treasury := jsMul (some feeBatch.treasurySplit) beefySplit
    stakers := jsMul (some feeBatch.stakerSplit) beefySplit }

/-- `performanceForMaxi`: address-based special casing for maxi vaults. -/
def performanceForMaxi (contractCalls : StrategyCallResponse) : PerformanceFee :=
  let callFee := jsNullish (jsNullish (jsNullish contractCalls.call contractCalls.call2)
    contractCalls.call3) contractCalls.call4
  let maxCallFee : ℚ := contractCalls.maxCallFee.getD 1000
  let maxFee := jsNullish (jsNullish contractCalls.maxFee contractCalls.maxFee2)
    contractCalls.maxFee3
  let rewards := jsNullish contractCalls.rewards contractCalls.rewards2
  let strategyAddress := jsToLowerCase contractCalls.strategy
  if ([jsToLowerCase ("0x436D5127F16fAC1F021733dda090b5E6DE30b3bB"),
       jsToLowerCase ("0xa9E6E271b27b20F65394914f8784B3B860dBd259")]).contains strategyAddress then
    { total := jsDiv callFee (some 1000)
      strategist := some 0
      call := jsDiv callFee (some 1000)
      treasury := some 0
      stakers := some 0 }
  else if (["0x24AAaB9DA14308bAf9d670e2a37369FE8Cb5Fe36",
            "0x22b3d90BDdC3Ad5F2948bE3914255C64Ebc8c9b3",
            "0xbCF1e02ac0c45729dC85F290C4A6AB35c4801cB1",
            "0xb25eB9105549627050AAB3A1c909fBD454014beA"].map
      jsToLowerCase).contains strategyAddress then
    { total := jsDiv (jsMul (some ((45:ℚ)/1000)) callFee) maxFee
      strategist := some 0
      call := jsDiv (jsMul (some ((45:ℚ)/1000)) callFee) maxFee
      treasury := some 0
      stakers := some 0 }
  else if jsToLowerCase ("0xca077eEC87e2621F5B09AFE47C42BAF88c6Af18c") = strategyAddress then
    -- avax maxi
    { total := some (5/1000)
      strategist := some 0
      call := some (5/1000)
      treasury := some 0
      stakers := some 0 }
  else if jsToLowerCase ("0x87056F5E8Dce0fD71605E6E291C6a3B53cbc3818") = strategyAddress then
    -- old bifi maxi
    { total := jsDiv (jsAdd callFee rewards) maxFee
      strategist := some 0
      call := jsDiv callFee maxFee
      treasury := some 0
      stakers := jsDiv rewards maxFee }
  else
    { total := jsDiv callFee (some maxCallFee)
      strategist := some 0
      call := jsDiv callFee (some maxCallFee)
      treasury := some 0
      stakers := some 0 }

/-- `performanceFeesFromCalls`: generation dispatch — aggregate getter,
then breakdown getter, then the maxi vault-id pattern, then the legacy
accessor chain. -/
def performanceFeesFromCalls (contractCalls : StrategyCallResponse)
    (feeBatch : FeeBatchDetail) : Option PerformanceFee :=
  match contractCalls.allFees with
  | some allFees => some (performanceFromGetFees allFees.performance feeBatch)
  | none =>
    match contractCalls.breakdown with
    | some breakdown => some (performanceFromGetFees breakdown feeBatch)
    | none =>
      if jsIncludes contractCalls.id ("-maxi") then
        some (performanceForMaxi contractCalls)
      else
        legacyFeeMappings contractCalls feeBatch

/-- `mapStrategyCallsToFeeBreakdown`: `none` models the `undefined` return
taken when the withdraw fee or the performance fee is `undefined`. -/
def mapStrategyCallsToFeeBreakdown (contractCalls : StrategyCallResponse)
    (feeBatch : FeeBatchDetail) : Option VaultFeeBreakdown :=
  match withdrawalFeeFromCalls contractCalls with
  | none => none
  | some withdrawFee =>
    match performanceFeesFromCalls contractCalls feeBatch with
    | none => none
    | some performanceFee =>
      some { performance := performanceFee
             withdraw := withdrawFee
             deposit := depositFeeFromCalls contractCalls }

/-- `getTotalPerformanceFeeForVault`: the in-memory cache is modelled as
the lookup function `vaultFees`. -/
def getTotalPerformanceFeeForVault (vaultFees : String → Option VaultFeeBreakdown)
    (vaultId : String) : Option ℚ :=
  match vaultFees vaultId with
  | none => some (95/1000)
  | some entry => entry.performance.total

/-- Error signature of a failed `feeBatchContract.methods.treasuryFee().call()`:
which of the three message fragments tested by `updateFeeBatches` the error
message contains. -/
structure TreasuryCallError where
  includesRevert : Bool
  includesCorrectABI : Bool
  includesCannotEstimateGas : Bool
deriving DecidableEq, Repr

/-- Outcome of one chain's `treasuryFee()` accessor call. -/
inductive TreasuryCallOutcome where
  | success (value : ℚ)
  | failure (err : TreasuryCallError)
deriving DecidableEq, Repr

/-- Chain id of zksync: the value of `ChainId.zksync` from the external
address-book package (not part of the modelled sources; only its identity
matters to the logic). -/
def zksyncChainId : ℕ := 324

/-- One chain's iteration of `updateFeeBatches`: compute `treasurySplit`
from the call outcome (the two special-cased failure signatures give the
defaults 140 and 640), then store a fresh `FeeBatchDetail` only when
`treasurySplit` is truthy (defined and nonzero); otherwise the previous
cached entry is kept. -/
def updateFeeBatchForChain (chainId : ℕ) (feeBatchAddress : String)
    (outcome : TreasuryCallOutcome) (prev : Option FeeBatchDetail) :
    Option FeeBatchDetail :=
  let treasurySplit : Option ℚ :=
    match outcome with
    | .success v => some v
    | .failure err =>
      if err.includesRevert || err.includesCorrectABI then some 140
      else if chainId = zksyncChainId && err.includesCannotEstimateGas then some 640
      else none
  match treasurySplit with
  | some t =>
    if t ≠ 0 then
      some { address := feeBatchAddress
             treasurySplit := t / 1000
             stakerSplit := 1 - t / 1000 }
    else prev
  | none => prev

/-- A representative fee-batch split with the historical default
`treasurySplit = 0.14`. -/
def fbStd : FeeBatchDetail :=
  { address := "0xfeebatch", treasurySplit := 14/100, stakerSplit := 86/100 }

/-- Legacy probe whose components do not sum to `maxFee` for the
call+strategist+beefy shape but do for the call+treasury+rewards shape. -/
def probeC1 : StrategyCallResponse :=
  { id := "test-legacy", strategy := "0xstrat", call := some 100, strategist := some 100,
    beefy := some 100, treasury := some 200, rewards := some 200, maxFee := some 500 }

/-- Legacy probe satisfying both the call+strategist+beefy==maxFee and the
call+treasury+rewards==maxFee shapes at once. -/
def probeC1w : StrategyCallResponse :=
  { id := "w-legacy", strategy := "0xw", call := some 100, strategist := some 100,
    beefy := some 300, treasury := some 200, rewards := some 200, maxFee := some 500 }

/-- Probe whose strategy address is the allow-listed avax maxi strategy and
which also carries an aggregate-getter response. -/
def probeC2 : StrategyCallResponse :=
  { id := "bifi-maxi", strategy := "0xca077eEC87e2621F5B09AFE47C42BAF88c6Af18c",
    allFees := some { performance := { total := 100000000000000000,
                                       beefy := 100000000000000000,
                                       strategist := 0, call := 0 },
                      withdraw := 0, deposit := 0 } }

/-- Probe with the allow-listed avax maxi strategy address and no aggregate
or breakdown getter response. -/
def probeC2w : StrategyCallResponse :=
  { id := "avax-maxi", strategy := "0xca077eEC87e2621F5B09AFE47C42BAF88c6Af18c" }

/-- Legacy probe for the hard-coded `cake-cakev2-eol` vault reaching the
call+beefy==maxFee branch. -/
def probeC3 : StrategyCallResponse :=
  { id := "cake-cakev2-eol", strategy := "0xcake", call := some 100, beefy := some 400,
    maxFee := some 500 }

/-- The breakdown `legacyFeeMappings` produces for `probeC3`. -/
def perfC3 : PerformanceFee :=
  { total := some (1/100), call := some (1/500), strategist := some 0,
    treasury := some (7/6250), stakers := some (43/6250) }

/-- Legacy probe reaching the strategist+call+treasury fallback branch,
whose breakdown components do not sum to the reported total. -/
def probeNonAdd : StrategyCallResponse :=
  { id := "nonadd-legacy", strategy := "0xn", call := some 100, strategist := some 100,
    treasury := some 100, maxFee := some 10000 }

/-- The breakdown `legacyFeeMappings` produces for `probeNonAdd`. -/
def perfNonAdd : PerformanceFee :=
  { total := some (9/200), call := some (9/20000), strategist := some (9/20000),
    treasury := some (9/20000), stakers := some 0 }

/-- The spec's worked legacy example: `call=500, strategist=0, beefy=4000,
maxFee=10000`, no other accessors responding. -/
def probeC4 : StrategyCallResponse :=
  { id := "example-legacy", strategy := "0xexample", call := some 500, strategist := some 0,
    beefy := some 4000, maxFee := some 10000 }

/-- The breakdown `mapStrategyCallsToFeeBreakdown` produces for `probeC2`. -/
def bdC6 : VaultFeeBreakdown :=
  { performance := { total := some (1/10), call := some 0, strategist := some 0,
                     treasury := some (7/500), stakers := some (43/500) },
    withdraw := some 0, deposit := some 0 }

/-- The fee-batch entry a revert-signature failure stores. -/
def fbW : FeeBatchDetail :=
  { address := "0xw", treasurySplit := 140/1000, stakerSplit := 1 - 140/1000 }

/-- The avax maxi address differs from the first entry of the first maxi
allow-list. -/
theorem addrNe1 : ("0xca077eec87e2621f5b09afe47c42baf88c6af18c" =
    jsToLowerCase ("0x436D5127F16fAC1F021733dda090b5E6DE30b3bB")) = False := by decide

/-- The avax maxi address differs from the second entry of the first maxi
allow-list. -/
theorem addrNe2 : ("0xca077eec87e2621f5b09afe47c42baf88c6af18c" =
    jsToLowerCase ("0xa9E6E271b27b20F65394914f8784B3B860dBd259")) = False := by decide

/-- The avax maxi address differs from the first entry of the second maxi
allow-list. -/
theorem addrNe3 : ("0xca077eec87e2621f5b09afe47c42baf88c6af18c" =
    jsToLowerCase ("0x24AAaB9DA14308bAf9d670e2a37369FE8Cb5Fe36")) = False := by decide

/-- The avax maxi address differs from the second entry of the second maxi
allow-list. -/
theorem addrNe4 : ("0xca077eec87e2621f5b09afe47c42baf88c6af18c" =
    jsToLowerCase ("0x22b3d90BDdC3Ad5F2948bE3914255C64Ebc8c9b3")) = False := by decide

/-- The avax maxi address differs from the third entry of the second maxi
allow-list. -/
theorem addrNe5 : ("0xca077eec87e2621f5b09afe47c42baf88c6af18c" =
    jsToLowerCase ("0xbCF1e02ac0c45729dC85F290C4A6AB35c4801cB1")) = False := by decide

/-- The avax maxi address differs from the fourth entry of the second maxi
allow-list. -/
theorem addrNe6 : ("0xca077eec87e2621f5b09afe47c42baf88c6af18c" =
    jsToLowerCase ("0xb25eB9105549627050AAB3A1c909fBD454014beA")) = False := by decide

/-- The avax maxi address literal lowercases to its canonical form. -/
theorem avaxAddrLower :
    jsToLowerCase ("0xca077eEC87e2621F5B09AFE47C42BAF88c6Af18c") =
      "0xca077eec87e2621f5b09afe47c42baf88c6af18c" := by decide

/-- Claim C1 (counterexample): on `probeC1` the call+strategist+beefy
components do not sum to the max-fee denominator while the
call+treasury+rewards components do, yet the classifier accepts the
`!isNaN` fallback that reuses the call+strategist+beefy formula, not the
formula of the first sum-matching shape. -/
theorem C1_legacy_counterexample :
    (100 + 100 + 100 : ℚ) ≠ 500 ∧
    (100 + 200 + 200 : ℚ) = 500 ∧
    legacyFeeMappings probeC1 fbStd =
      some { total := some (9/200), call := some (9/1000), strategist := some (9/1000),
             treasury := some (63/50000), stakers := some (387/50000) } ∧
    legacyFeeMappings probeC1 fbStd ≠
      some { total := some (9/200), call := some (9/1000), strategist := some 0,
             treasury := some (9/500), stakers := some (9/500) } := by
  refine ⟨by norm_num, by norm_num, ?_, ?_⟩ <;>
    norm_num [legacyFeeMappings, probeC1, fbStd, jsNullish, jsAdd, jsEq, jsMul, jsDiv]

/-- Claim C1 (amended): the legacy branches are tried in their documented
order with first-match-wins semantics (the two `!isNaN` fallback branches
accept on mere presence of their components, without the sum check);
whenever the first shape's components all responded and sum to the max-fee
denominator, the classifier yields the call+strategist+beefy formula — in
particular this is the result for a probe satisfying both the
call+strategist+beefy==maxFee and the call+treasury+rewards==maxFee
shapes. -/
theorem C1_legacy_first_match (p : StrategyCallResponse) (fb : FeeBatchDetail)
    (c s b m : ℚ)
    (hc : jsNullish (jsNullish (jsNullish p.call p.call2) p.call3) p.call4 = some c)
    (hs : jsNullish p.strategist p.strategist2 = some s)
    (hb : p.beefy = some b)
    (hm : jsNullish (jsNullish p.maxFee p.maxFee2) p.maxFee3 = some m)
    (h1 : c + s + b = m) :
    legacyFeeMappings p fb =
      some { total := some (45/1000)
             call := jsDiv (some ((45:ℚ)/1000 * c)) (some m)
             strategist := jsDiv (some ((45:ℚ)/1000 * s)) (some m)
             treasury := jsDiv (some ((45:ℚ)/1000 * fb.treasurySplit * b)) (some m)
             stakers := jsDiv (some ((45:ℚ)/1000 * fb.stakerSplit * b)) (some m) } := by
  simp only [legacyFeeMappings, hc, hs, hb, hm]
  simp [jsAdd, jsEq, jsMul, h1]

/-- Claim C1 (witness): the amended theorem applied to a probe satisfying
both the call+strategist+beefy==maxFee and call+treasury+rewards==maxFee
shapes. -/
theorem C1_legacy_first_match_witness :
    legacyFeeMappings probeC1w fbStd =
      some { total := some (45/1000)
             call := jsDiv (some ((45:ℚ)/1000 * 100)) (some 500)
             strategist := jsDiv (some ((45:ℚ)/1000 * 100)) (some 500)
             treasury := jsDiv (some ((45:ℚ)/1000 * fbStd.treasurySplit * 300)) (some 500)
             stakers := jsDiv (some ((45:ℚ)/1000 * fbStd.stakerSplit * 300)) (some 500) } :=
  C1_legacy_first_match probeC1w fbStd 100 100 300 500 rfl rfl rfl rfl (by norm_num)

/-- Claim C2 (counterexample): `probeC2` carries the allow-listed avax maxi
strategy address, but because an aggregate-getter response is present the
classifier derives the fee from it rather than yielding the hand-coded
constant for that address. -/
theorem C2_maxi_counterexample :
    jsToLowerCase probeC2.strategy = "0xca077eec87e2621f5b09afe47c42baf88c6af18c" ∧
    performanceForMaxi probeC2 =
      { total := some (1/200), call := some (1/200), strategist := some 0,
        treasury := some 0, stakers := some 0 } ∧
    performanceFeesFromCalls probeC2 fbStd =
      some { total := some (1/10), call := some 0, strategist := some 0,
             treasury := some (7/500), stakers := some (43/500) } ∧
    performanceFeesFromCalls probeC2 fbStd ≠
      some { total := some (1/200), call := some (1/200), strategist := some 0,
             treasury := some 0, stakers := some 0 } := by
  refine ⟨by decide, ?_, ?_, ?_⟩
  · norm_num [performanceForMaxi, probeC2, avaxAddrLower, addrNe1, addrNe2, addrNe3,
      addrNe4, addrNe5, addrNe6, jsNullish, jsDiv, jsAdd, jsMul]
  · norm_num [performanceFeesFromCalls, performanceFromGetFees, probeC2, fbStd, jsDiv, jsMul]
  · norm_num [performanceFeesFromCalls, performanceFromGetFees, probeC2, fbStd, jsDiv, jsMul]

/-- Claim C2 (amended): for a probe with no aggregate-getter and no
breakdown-getter response and a vault id containing `-maxi`, classification
dispatches to the address-based maxi special-casing; in particular when
the strategy address lowercases to the allow-listed avax maxi address the
result is that address's hand-coded constant, regardless of every other
accessor response in the probe. -/
theorem C2_maxi_dispatch (p : StrategyCallResponse) (fb : FeeBatchDetail)
    (hAll : p.allFees = none) (hBr : p.breakdown = none)
    (hMaxi : jsIncludes p.id ("-maxi") = true) :
    performanceFeesFromCalls p fb = some (performanceForMaxi p) ∧
    (jsToLowerCase p.strategy = "0xca077eec87e2621f5b09afe47c42baf88c6af18c" →
      performanceFeesFromCalls p fb =
        some { total := some (1/200), call := some (1/200), strategist := some 0,
               treasury := some 0, stakers := some 0 }) := by
  have hdisp : performanceFeesFromCalls p fb = some (performanceForMaxi p) := by
    simp [performanceFeesFromCalls, hAll, hBr, hMaxi]
  refine ⟨hdisp, fun haddr => ?_⟩
  rw [hdisp]
  norm_num [performanceForMaxi, haddr, addrNe1, addrNe2, addrNe3, addrNe4, addrNe5,
    addrNe6, avaxAddrLower]

/-- Claim C2 (witness): the amended theorem applied to a maxi probe with
the avax maxi strategy address and no getter responses. -/
theorem C2_maxi_dispatch_witness :
    performanceFeesFromCalls probeC2w fbStd = some (performanceForMaxi probeC2w) ∧
    (jsToLowerCase probeC2w.strategy = "0xca077eec87e2621f5b09afe47c42baf88c6af18c" →
      performanceFeesFromCalls probeC2w fbStd =
        some { total := some (1/200), call := some (1/200), strategist := some 0,
               treasury := some 0, stakers := some 0 }) :=
  C2_maxi_dispatch probeC2w fbStd rfl rfl (by decide)

/-- Claim C3 (counterexample): the legacy probe for the hard-coded
`cake-cakev2-eol` vault is classified with a total of 0.01, which is
neither 0.045 nor 0.05. -/
theorem C3_total_counterexample :
    legacyFeeMappings probeC3 fbStd = some perfC3 ∧
    perfC3.total = some (1/100) ∧
    (1:ℚ)/100 ≠ 45/1000 ∧ (1:ℚ)/100 ≠ 5/100 := by
  refine ⟨?_, rfl, by norm_num, by norm_num⟩
  norm_num [legacyFeeMappings, probeC3, fbStd, perfC3, jsNullish, jsAdd, jsEq, jsMul, jsDiv]

/-- Claim C3 (amended): for every probe classified via a legacy
generation, the resulting total is a fixed constant — 0.045, 0.05, or 0.01
(the last only for the hard-coded vault id `cake-cakev2-eol`) — never read
from the contract; and it is not necessarily the sum of the breakdown
components, as the fallback-branch probe `probeNonAdd` shows. -/
theorem C3_legacy_total_constant (p : StrategyCallResponse) (fb : FeeBatchDetail)
    (perf : PerformanceFee) (h : legacyFeeMappings p fb = some perf) :
    (perf.total = some (45/1000) ∨ perf.total = some (5/100) ∨
      (perf.total = some (1/100) ∧ p.id = "cake-cakev2-eol")) ∧
    (legacyFeeMappings probeNonAdd fbStd = some perfNonAdd ∧
      jsAdd (jsAdd (jsAdd perfNonAdd.call perfNonAdd.strategist) perfNonAdd.treasury)
        perfNonAdd.stakers ≠ perfNonAdd.total) := by
  refine ⟨?_, ?_, ?_⟩
  case refine_2 =>
    norm_num [legacyFeeMappings, probeNonAdd, fbStd, perfNonAdd, jsNullish, jsAdd, jsEq,
      jsMul, jsDiv]
  case refine_3 => norm_num [jsAdd, perfNonAdd]
  simp only [legacyFeeMappings] at h
  split_ifs at h with h1 h2 h3 h4 h5 h6 h7 hcake h8
  all_goals simp only [Option.some.injEq] at h
  all_goals subst h
  all_goals simp_all

/-- Claim C3 (witness): the amended theorem applied to the
`cake-cakev2-eol` probe. -/
theorem C3_legacy_total_constant_witness :
    ((perfC3.total = some (45/1000) ∨ perfC3.total = some (5/100) ∨
      (perfC3.total = some (1/100) ∧ probeC3.id = "cake-cakev2-eol")) ∧
    (legacyFeeMappings probeNonAdd fbStd = some perfNonAdd ∧
      jsAdd (jsAdd (jsAdd perfNonAdd.call perfNonAdd.strategist) perfNonAdd.treasury)
        perfNonAdd.stakers ≠ perfNonAdd.total)) :=
  C3_legacy_total_constant probeC3 fbStd perfC3 (by
    norm_num [legacyFeeMappings, probeC3, fbStd, perfC3, jsNullish, jsAdd, jsEq, jsMul, jsDiv])

/-- The spec example's vault id does not match the maxi pattern. -/
theorem idC4NotMaxi : jsIncludes "example-legacy" ("-maxi") = false := by decide

/-- Claim C4: the legacy probe `call=500, strategist=0, beefy=4000,
maxFee=10000` under the split `treasurySplit=0.14, stakerSplit=0.86`
classifies to exactly the spec's worked breakdown. -/
theorem C4_legacy_example :
    performanceFeesFromCalls probeC4 fbStd =
      some { total := some (45/1000)
             call := some ((45:ℚ)/1000 * 500 / 10000)
             strategist := some 0
             treasury := some ((45:ℚ)/1000 * (14/100) * 4000 / 10000)
             stakers := some ((45:ℚ)/1000 * (86/100) * 4000 / 10000) } ∧
    ((45:ℚ)/1000 * 500 / 10000) = 225/100000 := by
  refine ⟨?_, by norm_num⟩
  norm_num [performanceFeesFromCalls, probeC4, fbStd, idC4NotMaxi, legacyFeeMappings,
    jsNullish, jsAdd, jsEq, jsMul, jsDiv]

/-- Claim C5: the withdraw fee is the aggregate withdraw value over 10000
when the aggregate getter responded; otherwise it is exactly 0 when the
contract is paused or no withdraw accessor or no max-withdraw accessor
responded; otherwise it is the first responding withdraw accessor divided
by the first responding max-withdraw accessor. -/
theorem C5_withdraw_fee (p : StrategyCallResponse) :
    (∀ af, p.allFees = some af →
      withdrawalFeeFromCalls p = some (some (af.withdraw / 10000))) ∧
    (p.allFees = none →
      (((p.withdraw = none ∧ p.withdraw2 = none) ∨
        (p.withdrawMax = none ∧ p.withdrawMax2 = none) ∨ p.paused = some true) →
        withdrawalFeeFromCalls p = some (some 0)) ∧
      (∀ w m, ¬((p.withdraw = none ∧ p.withdraw2 = none) ∨
          (p.withdrawMax = none ∧ p.withdrawMax2 = none) ∨ p.paused = some true) →
        jsNullish p.withdraw p.withdraw2 = some w →
        jsNullish p.withdrawMax p.withdrawMax2 = some m →
        withdrawalFeeFromCalls p = some (jsDiv (some w) (some m)))) := by
  refine ⟨fun af hA => ?_, fun hA => ⟨fun hguard => ?_, fun w m hguard hw hm => ?_⟩⟩
  · simp only [withdrawalFeeFromCalls, hA]
  · simp only [withdrawalFeeFromCalls, hA]
    rw [if_pos hguard]
  · simp only [withdrawalFeeFromCalls, hA]
    rw [if_neg hguard, hw, hm]

/-- Claim C6: a successfully classified probe's breakdown has a deposit
field exactly when the aggregate getter responded, and then it equals the
aggregate deposit value over 10000. -/
theorem C6_deposit_presence (p : StrategyCallResponse) (fb : FeeBatchDetail)
    (bd : VaultFeeBreakdown) (h : mapStrategyCallsToFeeBreakdown p fb = some bd) :
    (bd.deposit.isSome ↔ p.allFees.isSome) ∧
    (∀ af, p.allFees = some af → bd.deposit = some (af.deposit / 10000)) := by
  have hdep : bd.deposit = depositFeeFromCalls p := by
    unfold mapStrategyCallsToFeeBreakdown at h
    cases hw : withdrawalFeeFromCalls p <;> rw [hw] at h
    · exact absurd h (by simp)
    · cases hp : performanceFeesFromCalls p fb <;> rw [hp] at h
      · exact absurd h (by simp)
      · simp only [Option.some.injEq] at h
        subst h
        rfl
  rw [hdep]
  unfold depositFeeFromCalls
  cases hA : p.allFees <;> simp [hA]

/-- Claim C6 (witness): the theorem applied to the aggregate-getter probe
`probeC2` and its computed breakdown. -/
theorem C6_deposit_presence_witness :
    (bdC6.deposit.isSome ↔ probeC2.allFees.isSome) ∧
    (∀ af, probeC2.allFees = some af → bdC6.deposit = some (af.deposit / 10000)) :=
  C6_deposit_presence probeC2 fbStd bdC6 (by
    norm_num [mapStrategyCallsToFeeBreakdown, withdrawalFeeFromCalls, performanceFeesFromCalls,
      performanceFromGetFees, depositFeeFromCalls, probeC2, fbStd, bdC6, jsDiv, jsMul])

/-- Claim C7: every fee-batch entry the registry update stores satisfies
`treasurySplit + stakerSplit = 1` exactly, assuming the previously cached
entry (which may be retained) satisfied it. -/
theorem C7_split_sum_one (chainId : ℕ) (addr : String) (outcome : TreasuryCallOutcome)
    (prev : Option FeeBatchDetail)
    (hprev : ∀ q, prev = some q → q.treasurySplit + q.stakerSplit = 1)
    (fb : FeeBatchDetail)
    (h : updateFeeBatchForChain chainId addr outcome prev = some fb) :
    fb.treasurySplit + fb.stakerSplit = 1 := by
  rcases outcome with v | err <;> simp only [updateFeeBatchForChain] at h
  · split_ifs at h
    · have h2 := Option.some.inj h
      subst h2
      show v / 1000 + (1 - v / 1000) = 1
      ring
    · exact hprev fb h
  · split_ifs at h
    · norm_num at h
      subst h
      norm_num
    · norm_num at h
      subst h
      norm_num
    · exact hprev fb h

/-- Claim C7 (witness): the theorem applied to a revert-signature failure
on an empty cache, which stores the historical default split. -/
theorem C7_split_sum_one_witness : fbW.treasurySplit + fbW.stakerSplit = 1 :=
  C7_split_sum_one 1 "0xw"
    (.failure { includesRevert := true, includesCorrectABI := false,
                includesCannotEstimateGas := false })
    none (fun q hq => nomatch hq) fbW (by norm_num [updateFeeBatchForChain, fbW])

/-- Claim C8: a revert/ABI-mismatch failure stores the historical default
numerator 140; otherwise a cannot-estimate-gas failure on the zksync chain
stores the override numerator 640; every other failure leaves the
previously cached entry untouched. -/
theorem C8_treasury_failure_cases (chainId : ℕ) (addr : String) (e : TreasuryCallError)
    (prev : Option FeeBatchDetail) :
    (e.includesRevert = true ∨ e.includesCorrectABI = true →
      updateFeeBatchForChain chainId addr (.failure e) prev =
        some { address := addr, treasurySplit := 140/1000, stakerSplit := 1 - 140/1000 }) ∧
    (e.includesRevert = false → e.includesCorrectABI = false →
      chainId = zksyncChainId → e.includesCannotEstimateGas = true →
      updateFeeBatchForChain chainId addr (.failure e) prev =
        some { address := addr, treasurySplit := 640/1000, stakerSplit := 1 - 640/1000 }) ∧
    (e.includesRevert = false → e.includesCorrectABI = false →
      ¬(chainId = zksyncChainId ∧ e.includesCannotEstimateGas = true) →
      updateFeeBatchForChain chainId addr (.failure e) prev = prev) := by
  refine ⟨fun hra => ?_, fun hr ha hz hg => ?_, fun hr ha hzg => ?_⟩
  · have hor : (e.includesRevert || e.includesCorrectABI) = true := by
      rcases hra with h1 | h1 <;> simp [h1]
    simp only [updateFeeBatchForChain, hor, if_true]
    norm_num
  · simp only [updateFeeBatchForChain, hr, ha, hz, hg]
    norm_num
  · have hor : (e.includesRevert || e.includesCorrectABI) = false := by simp [hr, ha]
    have hzb : (decide (chainId = zksyncChainId) && e.includesCannotEstimateGas) = false := by
      rcases Bool.eq_false_or_eq_true e.includesCannotEstimateGas with hg | hg
      · have hne : chainId ≠ zksyncChainId := fun hc => hzg ⟨hc, hg⟩
        simp [hne]
      · simp [hg]
    simp only [updateFeeBatchForChain, hor, hzb, Bool.false_eq_true, if_false]

/-- Claim C9: a vault id with no cached entry reads back exactly 0.095,
and a vault id with a cached entry reads back that entry's
`performance.total`. -/
theorem C9_total_fee_default (vaultFees : String → Option VaultFeeBreakdown)
    (vaultId : String) :
    (vaultFees vaultId = none →
      getTotalPerformanceFeeForVault vaultFees vaultId = some (95/1000)) ∧
    (∀ entry, vaultFees vaultId = some entry →
      getTotalPerformanceFeeForVault vaultFees vaultId = entry.performance.total) := by
  constructor
  · intro h
    simp only [getTotalPerformanceFeeForVault, h]
  · intro entry h
    simp only [getTotalPerformanceFeeForVault, h]

/-- Claim C10: `withdrawalFeeFromCalls` always returns a defined value, so
the withdraw-fee failure branch of `mapStrategyCallsToFeeBreakdown` is
unreachable and classification fails exactly when the performance-fee
derivation fails. -/
theorem C10_classification_totality (p : StrategyCallResponse) (fb : FeeBatchDetail) :
    (withdrawalFeeFromCalls p).isSome = true ∧
    (mapStrategyCallsToFeeBreakdown p fb = none ↔ performanceFeesFromCalls p fb = none) := by
  have hw : (withdrawalFeeFromCalls p).isSome = true := by
    unfold withdrawalFeeFromCalls
    cases p.allFees
    · split_ifs <;> rfl
    · rfl
  refine ⟨hw, ?_⟩
  unfold mapStrategyCallsToFeeBreakdown
  obtain ⟨w, hww⟩ := Option.isSome_iff_exists.mp hw
  rw [hww]
  cases hp : performanceFeesFromCalls p fb <;> simp

end VaultFees
